import Mathlib

/-!
Verification of the icecc-rs discovery + framed-message protocol layer.

The Rust crate is a binding over the native icecc library: the pure parts
(message-type dispatch, language-enum coercions, handle cloning, C-string
conversion in constructors and setters) are embedded directly from
`src/src/lib.rs`; the native primitives declared in the `sys` crate but not
present in this repository are modelled from the specification, each marked
`Modelled from the spec:` in its doc comment.
-/

namespace Icecc

/-- Wire message type tags, one per arm of the exhaustive match in
`Message::from_raw_ptr` (src/src/lib.rs lines 430-465); the match has no
wildcard, so the native enum has exactly these 31 constructors. -/
inductive MsgType
  | M_UNKNOWN
  | M_PING
  | M_END
  | M_TIMEOUT
  | M_GET_NATIVE_ENV
  | M_NATIVE_ENV
  | M_GET_CS
  | M_USE_CS
  | M_COMPILE_FILE
  | M_FILE_CHUNK
  | M_COMPILE_RESULT
  | M_JOB_BEGIN
  | M_JOB_DONE
  | M_JOB_LOCAL_BEGIN
  | M_JOB_LOCAL_DONE
  | M_LOGIN
  | M_CS_CONF
  | M_STATS
  | M_TRANSFER_ENV
  | M_GET_INTERNALS
  | M_MON_LOGIN
  | M_MON_GET_CS
  | M_MON_JOB_BEGIN
  | M_MON_JOB_DONE
  | M_MON_LOCAL_JOB_BEGIN
  | M_MON_STATS
  | M_TEXT
  | M_STATUS_TEXT
  | M_VERIFY_ENV
  | M_VERIFY_ENV_RESULT
  | M_BLACKLIST_HOST_ENV
  deriving DecidableEq, Repr, Fintype

/-- The constructors of the public `Message` enum
(src/src/lib.rs lines 396-426), one per known message kind. -/
inductive MessageKind
  | Ping
  | End
  | GetNativeEnv
  | NativeEnv
  | GetCS
  | UseCS
  | CompileFile
  | FileChunk
  | CompileResult
  | JobBegin
  | JobDone
  | LocalJobBegin
  | LocalJobDone
  | Login
  | ConfCS
  | Stats
  | EnvTransfer
  | InternalStatus
  | MonitorLogin
  | MonitorGetCS
  | MonitorJobBegin
  | MonitorJobDone
  | MonitorLocalJobBegin
  | MonitorStats
  | Text
  | StatusText
  | VerifyEnv
  | VerifyEnvResult
  | BlacklistHostEnv
  deriving DecidableEq, Repr, Fintype

/-- The dispatch of `Message::from_raw_ptr` (src/src/lib.rs lines 430-465):
each known tag builds the corresponding variant; the two reserved tags hit
a `panic` arm, modelled as an error carrying the panic message. -/
def Message.from_raw_ptr (t : MsgType) : Except String MessageKind :=
  match t with
  | .M_UNKNOWN => .error "M_UNKNOWN messages are unused"
  | .M_PING => .ok .Ping
  | .M_END => .ok .End
  | .M_TIMEOUT => .error "M_TIMEOUT messages are unused"
  | .M_GET_NATIVE_ENV => .ok .GetNativeEnv
  | .M_NATIVE_ENV => .ok .NativeEnv
  | .M_GET_CS => .ok .GetCS
  | .M_USE_CS => .ok .UseCS
  | .M_COMPILE_FILE => .ok .CompileFile
  | .M_FILE_CHUNK => .ok .FileChunk
  | .M_COMPILE_RESULT => .ok .CompileResult
  | .M_JOB_BEGIN => .ok .JobBegin
  | .M_JOB_DONE => .ok .JobDone
  | .M_JOB_LOCAL_BEGIN => .ok .LocalJobBegin
  | .M_JOB_LOCAL_DONE => .ok .LocalJobDone
  | .M_LOGIN => .ok .Login
  | .M_CS_CONF => .ok .ConfCS
  | .M_STATS => .ok .Stats
  | .M_TRANSFER_ENV => .ok .EnvTransfer
  | .M_GET_INTERNALS => .ok .InternalStatus
  | .M_MON_LOGIN => .ok .MonitorLogin
  | .M_MON_GET_CS => .ok .MonitorGetCS
  | .M_MON_JOB_BEGIN => .ok .MonitorJobBegin
  | .M_MON_JOB_DONE => .ok .MonitorJobDone
  | .M_MON_LOCAL_JOB_BEGIN => .ok .MonitorLocalJobBegin
  | .M_MON_STATS => .ok .MonitorStats
  | .M_TEXT => .ok .Text
  | .M_STATUS_TEXT => .ok .StatusText
  | .M_VERIFY_ENV => .ok .VerifyEnv
  | .M_VERIFY_ENV_RESULT => .ok .VerifyEnvResult
  | .M_BLACKLIST_HOST_ENV => .ok .BlacklistHostEnv

/-- Whether decoding a frame with tag `t` yields a `Message` value (rather
than aborting in the reserved-tag panic arms). -/
def decodesOk (t : MsgType) : Bool :=
  match Message.from_raw_ptr t with
  | .ok _ => true
  | .error _ => false

/-- The number of tags that decode to a `Message` variant. -/
def decodeCount : Nat :=
  (Finset.univ.filter fun t : MsgType => decodesOk t = true).card

/-- The public source-language enum (src/src/lib.rs lines 17-23). -/
inductive Language
  | C
  | CPlusPlus
  | ObjectiveC
  | Custom
  deriving DecidableEq, Repr

/-- The wire representation `sys::CompileJobLanguage`; the two exhaustive
`From` matches in src/src/lib.rs lines 25-47 show exactly these four
constructors. -/
inductive CompileJobLanguage
  | C
  | CXX
  | OBJC
  | CUSTOM
  deriving DecidableEq, Repr

/-- `impl From of sys::CompileJobLanguage for Language`
(src/src/lib.rs lines 25-35). -/
def Language.fromSys (lang : CompileJobLanguage) : Language :=
  match lang with
  | .C => .C
  | .CXX => .CPlusPlus
  | .OBJC => .ObjectiveC
  | .CUSTOM => .Custom

/-- `impl From of Language for sys::CompileJobLanguage`
(src/src/lib.rs lines 37-47). -/
def Language.toSys (lang : Language) : CompileJobLanguage :=
  match lang with
  | .C => .C
  | .CPlusPlus => .CXX
  | .ObjectiveC => .OBJC
  | .Custom => .CUSTOM

/-- Modelled from the spec: the observable state of the native `MsgChannel`.
`bufferedFrames` are the complete frames already accumulated in the internal
read buffer; `incoming` are pending frames tagged with the wall-clock delay
(milliseconds from now) after which their bytes become readable, in arrival
order, delay `0` meaning already readable without blocking; `peerClosed`
records an orderly peer close; `closed` the `Closed` channel state entered
after a socket error; `writeError` whether the next socket write fails;
`sent` the frames flushed so far; `bulk` the bulk-transfer framing mode. -/
structure MsgChannelState where
  bufferedFrames : List MsgType
  incoming : List (Nat × MsgType)
  peerClosed : Bool
  closed : Bool
  writeError : Bool
  sent : List MsgType
  bulk : Bool
  deriving DecidableEq, Repr

/-- Modelled from the spec: `msg_channel_read_a_bit` performs one
non-blocking read attempt — it appends the bytes already readable (delay 0)
to the internal buffer, never waits for later data, and returns whether a
complete frame is now available. -/
def msg_channel_read_a_bit (c : MsgChannelState) : Bool × MsgChannelState :=
  let ready := c.incoming.filter fun p => p.1 = 0
  let c' := { c with
    bufferedFrames := c.bufferedFrames ++ ready.map Prod.snd,
    incoming := c.incoming.filter fun p => p.1 ≠ 0 }
  (!c'.bufferedFrames.isEmpty, c')

/-- Modelled from the spec: `msg_channel_has_msg` is true iff the internal
buffer currently holds at least one complete frame. -/
def msg_channel_has_msg (c : MsgChannelState) : Bool :=
  !c.bufferedFrames.isEmpty

/-- Modelled from the spec: `msg_channel_get_msg` (the no-timeout receive
primitive) — if a complete frame is buffered it is returned immediately with
no I/O; otherwise exactly one non-blocking read attempt equivalent to
`read_a_bit` is performed and the buffer checked again; it never blocks and
returns the null pointer (`none`) when no complete frame is available. -/
def msg_channel_get_msg (c : MsgChannelState) : Option MsgType × MsgChannelState :=
  match c.bufferedFrames with
  | f :: rest => (some f, { c with bufferedFrames := rest })
  | [] =>
    let c' := (msg_channel_read_a_bit c).2
    match c'.bufferedFrames with
    | f :: rest => (some f, { c' with bufferedFrames := rest })
    | [] => (none, c')

/-- Modelled from the spec: `msg_channel_get_msg_with_timeout` — if a frame
is buffered it is returned with no I/O; otherwise the call blocks up to the
given duration waiting for a frame, returning the null pointer (`none`) on
timeout or on an orderly peer close. The middle component is the wall-clock
time the call spent blocked. -/
def msg_channel_get_msg_with_timeout (c : MsgChannelState) (t : Nat) :
    Option MsgType × Nat × MsgChannelState :=
  match c.bufferedFrames with
  | f :: rest => (some f, 0, { c with bufferedFrames := rest })
  | [] =>
    if c.peerClosed then (none, 0, c)
    else
      match c.incoming with
      | [] => (none, t, c)
      | (a, f) :: rest =>
        if a ≤ t then (some f, a, { c with incoming := rest })
        else (none, t, c)

/-- `MessageChannel::recv` (src/src/lib.rs lines 196-206): dispatches on the
optional timeout to the matching native receive primitive; a null pointer
becomes `none`, any other pointer is decoded through `Message::from_raw_ptr`
(whose reserved-tag panics propagate as errors). The middle component is the
wall-clock time spent blocked. -/
def MessageChannel.recv (c : MsgChannelState) (timeout : Option Nat) :
    Except String (Option MessageKind) × Nat × MsgChannelState :=
  match timeout with
  | none =>
    match msg_channel_get_msg c with
    | (none, c') => (.ok none, 0, c')
    | (some tag, c') => ((Message.from_raw_ptr tag).map some, 0, c')
  | some t =>
    match msg_channel_get_msg_with_timeout c t with
    | (none, e, c') => (.ok none, e, c')
    | (some tag, e, c') => ((Message.from_raw_ptr tag).map some, e, c')

/-- Modelled from the spec: `msg_send_to_channel` — encodes and writes the
full frame, retrying partial writes internally until the whole frame is
flushed or the socket errors; a write error transitions the channel to
`Closed`. Its declaration in the `sys` crate returns no value (the call
sites in src/src/lib.rs lines 208-211 and 278-280 use it in unit position),
so success or failure is recorded only in the channel state. -/
def msg_send_to_channel (m : MsgType) (c : MsgChannelState) : MsgChannelState :=
  if c.writeError then { c with closed := true }
  else { c with sent := c.sent ++ [m] }

/-- `MessageChannel::send` (src/src/lib.rs lines 208-211): calls the native
send primitive and returns unit. -/
def MessageChannel.send (c : MsgChannelState) (m : MsgType) : Unit × MsgChannelState :=
  ((), msg_send_to_channel m c)

/-- A wrapped `MessageChannel` handle (src/src/lib.rs lines 158-161); the
reference-counted indirection to the native channel state is elided here and
modelled separately by `RcState`. -/
structure MessageChannel where
  mc : MsgChannelState
  deriving DecidableEq, Repr

/-- `MessageChannel::from_raw_ptr` (src/src/lib.rs lines 165-170): asserts
the pointer is non-null (an abort, modelled as an error) and wraps it. -/
def MessageChannel.from_raw_ptr (p : Option MsgChannelState) :
    Except String MessageChannel :=
  match p with
  | none => .error "assertion failed: not ptr.is_null()"
  | some c => .ok ⟨c⟩

/-- Modelled from the spec: the observable state of the native
`DiscoverSched`. `startTime` is the wall-clock instant discovery started,
`timeout` the configured timeout; `connectDone` is the instant at which the
TCP handshake to the discovered scheduler completes (`none` when no
scheduler is reachable in this run) and `chan` the connected channel it
yields; `netname` and `schedulerHost` record the configuration. -/
structure DiscoverSchedState where
  startTime : Nat
  timeout : Nat
  netname : Option (List Nat)
  schedulerHost : Option (List Nat)
  connectDone : Option Nat
  chan : MsgChannelState
  deriving DecidableEq, Repr

/-- Modelled from the spec: `discover_sched_try_get_scheduler` is
non-blocking — it returns the null pointer while probing or connecting is
still in progress at wall-clock instant `now`, and the pointer to the
connected channel once the TCP handshake has completed. -/
def discover_sched_try_get_scheduler (d : DiscoverSchedState) (now : Nat) :
    Option MsgChannelState :=
  match d.connectDone with
  | none => none
  | some tDone => if tDone ≤ now then some d.chan else none

/-- Modelled from the spec: `discover_sched_timed_out` is true once the
elapsed wall-clock time since discovery start exceeds the configured timeout
and no scheduler has yet been found. -/
def discover_sched_timed_out (d : DiscoverSchedState) (now : Nat) : Bool :=
  decide (d.timeout < now - d.startTime) &&
    (discover_sched_try_get_scheduler d now).isNone

/-- `ScheduleDiscoverer::try_get_scheduler` (src/src/lib.rs lines 147-154):
calls the native probe; a null pointer becomes `none`, otherwise the channel
is wrapped through `MessageChannel::from_raw_ptr`. -/
def ScheduleDiscoverer.try_get_scheduler (d : DiscoverSchedState) (now : Nat) :
    Except String (Option MessageChannel) :=
  match discover_sched_try_get_scheduler d now with
  | none => .ok none
  | some p => (MessageChannel.from_raw_ptr (some p)).map some

/-- `ScheduleDiscoverer::timed_out` (src/src/lib.rs lines 135-137): calls
the native predicate directly. -/
def ScheduleDiscoverer.timed_out (d : DiscoverSchedState) (now : Nat) : Bool :=
  discover_sched_timed_out d now

/-- Byte strings as handed to the C layer. -/
abbrev ByteStr := List Nat

/-- `CString::new` from the Rust standard library (modelled from its
documented behavior): fails with `NulError` iff the supplied bytes contain a
NUL byte, otherwise yields the same bytes (NUL-terminated on the C side). -/
def cStringNew (s : ByteStr) : Option ByteStr :=
  if (0 : Nat) ∈ s then none else some s

/-- Environment input to discovery construction: whether/when a scheduler
handshake will complete in this run and the channel it produces. -/
structure DiscoveryEnv where
  connectDone : Option Nat
  chan : MsgChannelState
  deriving DecidableEq, Repr

/-- Modelled from the spec: `discover_sched_new` — starts broadcast
discovery with an optional network name (already NUL-checked) and the
default timeout; the clock origin is the construction instant. -/
def discover_sched_new (netname : Option ByteStr) (defaultTimeout : Nat)
    (env : DiscoveryEnv) : DiscoverSchedState :=
  { startTime := 0, timeout := defaultTimeout, netname := netname,
    schedulerHost := none, connectDone := env.connectDone, chan := env.chan }

/-- Modelled from the spec: `discover_sched_new_with_options` — discovery
with an explicit scheduler host and timeout. -/
def discover_sched_new_with_options (netname scheduler : ByteStr)
    (timeout : Nat) (env : DiscoveryEnv) : DiscoverSchedState :=
  { startTime := 0, timeout := timeout, netname := some netname,
    schedulerHost := some scheduler, connectDone := env.connectDone,
    chan := env.chan }

/-- `ScheduleDiscoverer::new` (src/src/lib.rs lines 105-121): with no
network name, passes a null pointer to the native constructor; with a name,
converts it through `CString::new(..).unwrap()`, whose failure is an abort
(modelled as an error). -/
def ScheduleDiscoverer.new (netname : Option ByteStr) (defaultTimeout : Nat)
    (env : DiscoveryEnv) : Except String DiscoverSchedState :=
  match netname with
  | none => .ok (discover_sched_new none defaultTimeout env)
  | some name =>
    match cStringNew name with
    | none => .error "called Result::unwrap() on an Err value: NulError"
    | some s => .ok (discover_sched_new (some s) defaultTimeout env)

/-- `ScheduleDiscoverer::new_with_options` (src/src/lib.rs lines 123-133):
converts the network name and then the scheduler host through
`CString::new(..).unwrap()`, each failure an abort (modelled as an error). -/
def ScheduleDiscoverer.new_with_options (netname scheduler : ByteStr)
    (timeout : Nat) (env : DiscoveryEnv) : Except String DiscoverSchedState :=
  match cStringNew netname with
  | none => .error "called Result::unwrap() on an Err value: NulError"
  | some cn =>
    match cStringNew scheduler with
    | none => .error "called Result::unwrap() on an Err value: NulError"
    | some cs => .ok (discover_sched_new_with_options cn cs timeout env)

/-- Modelled from the spec: the plain record behind a native `CompileJob` —
id, source language, and five string fields. -/
structure CompileJobRecord where
  job_id : Nat
  language : Language
  compiler_name : ByteStr
  environment_version : ByteStr
  input_file : ByteStr
  output_file : ByteStr
  target_platform : ByteStr
  deriving DecidableEq, Repr

/-- Modelled from the spec: the record allocated by `compile_job_new` — id 0
and empty strings ("Constructing with new() yields a job with id 0 and empty
strings"). -/
def compileJobRecordNew : CompileJobRecord :=
  { job_id := 0, language := .C, compiler_name := [],
    environment_version := [], input_file := [], output_file := [],
    target_platform := [] }

/-- The heap of native `CompileJob` allocations, addressed by index; raw
pointers become indices into this heap so that two handles holding the same
index alias the same native object. -/
abbrev JobHeap := List CompileJobRecord

/-- Read the record a pointer designates. -/
def jobAt (h : JobHeap) (p : Nat) : CompileJobRecord :=
  h.getD p compileJobRecordNew

/-- A `CompileJob` handle (src/src/lib.rs lines 511-514): a
reference-counted pointer to a native record; `derive(Clone)` clones the
`Rc`, so a clone copies the pointer, not the record. -/
structure CompileJob where
  ptr : Nat
  deriving DecidableEq, Repr

/-- `CompileJob::new` (src/src/lib.rs lines 530-532): allocates a fresh
native record and wraps the pointer. -/
def CompileJob.new (h : JobHeap) : CompileJob × JobHeap :=
  (⟨h.length⟩, h ++ [compileJobRecordNew])

/-- `derive(Clone)` on `CompileJob`: clones the inner `Rc` handle — the
resulting handle designates the same native record. -/
def CompileJob.clone (j : CompileJob) : CompileJob :=
  ⟨j.ptr⟩

/-- `CompileJob::job_id` via `accessor_simple` (src/src/lib.rs lines
215-225, 534-537): reads the native field. -/
def CompileJob.job_id (j : CompileJob) (h : JobHeap) : Nat :=
  (jobAt h j.ptr).job_id

/-- `CompileJob::set_job_id` via `accessor_simple`: writes the native field
in place through the shared pointer. -/
def CompileJob.set_job_id (j : CompileJob) (v : Nat) (h : JobHeap) : JobHeap :=
  h.set j.ptr { jobAt h j.ptr with job_id := v }

/-- `CompileJob::language` via `accessor_simple` with the
`sys::CompileJobLanguage` coercion (src/src/lib.rs lines 538-540). -/
def CompileJob.language (j : CompileJob) (h : JobHeap) : Language :=
  Language.fromSys (Language.toSys (jobAt h j.ptr).language)

/-- `CompileJob::set_language` via `accessor_simple` with the coercion. -/
def CompileJob.set_language (j : CompileJob) (v : Language) (h : JobHeap) :
    JobHeap :=
  h.set j.ptr { jobAt h j.ptr with language := Language.fromSys (Language.toSys v) }

/-- `CompileJob::compiler_name` via `accessor_string` (src/src/lib.rs lines
227-244): copies the native string out. -/
def CompileJob.compiler_name (j : CompileJob) (h : JobHeap) : ByteStr :=
  (jobAt h j.ptr).compiler_name

/-- `CompileJob::set_compiler_name` via `accessor_string`: converts through
`CString::new(..).unwrap()` (an abort on interior NUL, modelled as an
error), then writes the native field through the shared pointer. -/
def CompileJob.set_compiler_name (j : CompileJob) (v : ByteStr) (h : JobHeap) :
    Except String JobHeap :=
  match cStringNew v with
  | none => .error "called Result::unwrap() on an Err value: NulError"
  | some s => .ok (h.set j.ptr { jobAt h j.ptr with compiler_name := s })

/-- `CompileJob::environment_version` via `accessor_string`. -/
def CompileJob.environment_version (j : CompileJob) (h : JobHeap) : ByteStr :=
  (jobAt h j.ptr).environment_version

/-- `CompileJob::set_environment_version` via `accessor_string`. -/
def CompileJob.set_environment_version (j : CompileJob) (v : ByteStr)
    (h : JobHeap) : Except String JobHeap :=
  match cStringNew v with
  | none => .error "called Result::unwrap() on an Err value: NulError"
  | some s => .ok (h.set j.ptr { jobAt h j.ptr with environment_version := s })

/-- `CompileJob::input_file` via `accessor_string`. -/
def CompileJob.input_file (j : CompileJob) (h : JobHeap) : ByteStr :=
  (jobAt h j.ptr).input_file

/-- `CompileJob::set_input_file` via `accessor_string`. -/
def CompileJob.set_input_file (j : CompileJob) (v : ByteStr) (h : JobHeap) :
    Except String JobHeap :=
  match cStringNew v with
  | none => .error "called Result::unwrap() on an Err value: NulError"
  | some s => .ok (h.set j.ptr { jobAt h j.ptr with input_file := s })

/-- `CompileJob::output_file` via `accessor_string`. -/
def CompileJob.output_file (j : CompileJob) (h : JobHeap) : ByteStr :=
  (jobAt h j.ptr).output_file

/-- `CompileJob::set_output_file` via `accessor_string`. -/
def CompileJob.set_output_file (j : CompileJob) (v : ByteStr) (h : JobHeap) :
    Except String JobHeap :=
  match cStringNew v with
  | none => .error "called Result::unwrap() on an Err value: NulError"
  | some s => .ok (h.set j.ptr { jobAt h j.ptr with output_file := s })

/-- `CompileJob::target_platform` via `accessor_string`. -/
def CompileJob.target_platform (j : CompileJob) (h : JobHeap) : ByteStr :=
  (jobAt h j.ptr).target_platform

/-- `CompileJob::set_target_platform` via `accessor_string`. -/
def CompileJob.set_target_platform (j : CompileJob) (v : ByteStr)
    (h : JobHeap) : Except String JobHeap :=
  match cStringNew v with
  | none => .error "called Result::unwrap() on an Err value: NulError"
  | some s => .ok (h.set j.ptr { jobAt h j.ptr with target_platform := s })

/-- Modelled from the spec: the record behind a native `MonStatsMsg`
(host id and message string; src/src/lib.rs lines 375-384). -/
structure MonStatsRecord where
  host_id : Nat
  message : ByteStr
  deriving DecidableEq, Repr

/-- `msg::MonitorStats::set_message` via `accessor_string` (src/src/lib.rs
lines 375-384): converts through `CString::new(..).unwrap()` (an abort on
interior NUL, modelled as an error), then writes the native field. -/
def MonitorStats.set_message (m : MonStatsRecord) (v : ByteStr) :
    Except String MonStatsRecord :=
  match cStringNew v with
  | none => .error "called Result::unwrap() on an Err value: NulError"
  | some s => .ok { m with message := s }

/-- Modelled from the spec: the record behind a native `MonLocalJobBeginMsg`
(job id and filename; src/src/lib.rs lines 364-373). -/
structure MonLocalJobBeginRecord where
  job_id : Nat
  filename : ByteStr
  deriving DecidableEq, Repr

/-- `msg::MonitorLocalJobBegin::set_filename` via `accessor_string`
(src/src/lib.rs lines 364-373): converts through `CString::new(..).unwrap()`
(an abort on interior NUL, modelled as an error), then writes the native
field. -/
def MonitorLocalJobBegin.set_filename (m : MonLocalJobBeginRecord)
    (v : ByteStr) : Except String MonLocalJobBeginRecord :=
  match cStringNew v with
  | none => .error "called Result::unwrap() on an Err value: NulError"
  | some s => .ok { m with filename := s }

/-- The ownership state of one reference-counted native resource: `live`
counts the `Rc` handles alive, `freed` how many times the `sys` free
function has run. `implement_ptrs` (src/src/lib.rs lines 57-94) gives the
wrapped pointer a `Drop` that calls the free function, and every public
handle (`MessageChannel`, `ScheduleDiscoverer`, `CompileJob`, the message
structs) holds it behind an `Rc`, whose drop frees the inner value only when
the last handle goes away. -/
structure RcState where
  live : Nat
  freed : Nat
  deriving DecidableEq, Repr

/-- Creating a handle over a fresh native resource: one live handle,
resource not yet freed. -/
def rcNew : RcState := ⟨1, 0⟩

/-- `Rc::clone` (what `derive(Clone)` on the handle structs does): one more
live handle over the same resource. -/
def rcClone (s : RcState) : RcState := ⟨s.live + 1, s.freed⟩

/-- Dropping one handle: the last drop runs the wrapped pointer's `Drop`,
which calls the `sys` free function exactly then. -/
def rcDrop (s : RcState) : RcState :=
  if s.live = 1 then ⟨0, s.freed + 1⟩ else ⟨s.live - 1, s.freed⟩

deriving instance DecidableEq for Except

/-- An idle open channel used in concrete scenarios. -/
def chanIdle : MsgChannelState :=
  { bufferedFrames := [], incoming := [], peerClosed := false, closed := false,
    writeError := false, sent := [], bulk := false }

/-- A channel whose next socket write fails. -/
def chanWriteErr : MsgChannelState :=
  { chanIdle with writeError := true }

/-- A channel whose peer performed an orderly close. -/
def chanPeerClosed : MsgChannelState :=
  { chanIdle with peerClosed := true }

/-- A discoverer in a run where no scheduler is reachable. -/
def discoIdle : DiscoverSchedState :=
  { startTime := 0, timeout := 100, netname := none, schedulerHost := none,
    connectDone := none, chan := chanIdle }

/-- The heap after allocating one fresh `CompileJob`. -/
def jobHeap0 : JobHeap := (CompileJob.new []).2

/-- The handle to that fresh `CompileJob`. -/
def job0 : CompileJob := (CompileJob.new []).1

/-- Reading an index just filled by `List.set` returns the written value. -/
theorem listGetDSetSelf {α : Type} (l : List α) (n : Nat) (a d : α)
    (h : n < l.length) : (l.set n a).getD n d = a := by
  rw [List.getD_eq_getElem?_getD, List.getElem?_set_eq_of_lt a h]
  rfl

/-- Reading the freshly appended last element of a list. -/
theorem listGetDAppend {α : Type} (l : List α) (a d : α) :
    (l ++ [a]).getD l.length d = a := by
  induction l with
  | nil => rfl
  | cons x xs ih =>
    simp only [List.cons_append, List.length_cons, List.getD_cons_succ]
    exact ih

/-- Claim C8: the coercion between the `CompileJob` language enum and its
wire representation is a bijection — converting a `Language` to the wire
enum and back yields the original, and conversely for every wire value. -/
theorem C8_language_roundtrip :
    (∀ l : Language, Language.fromSys (Language.toSys l) = l) ∧
    (∀ w : CompileJobLanguage, Language.toSys (Language.fromSys w) = w) := by
  constructor
  · intro l; cases l <;> rfl
  · intro w; cases w <;> rfl

/-- Claim C1, counterexample: the decode dispatch handles 29 known message
kinds, not 28 as the claim counts them. -/
theorem C1_counterexample_not_28 : decodeCount ≠ 28 := by decide

/-- Claim C1 (amended to 29 kinds): decoding dispatches on the type tag to
produce exactly the corresponding `Message` variant for each of the 29 known
kinds (distinct tags give distinct results), and a frame whose tag is the
reserved `M_UNKNOWN` or `M_TIMEOUT` tag aborts in the decode layer rather
than yielding a `Message` value. -/
theorem C1_dispatch_total :
    decodeCount = 29 ∧
    (∀ t : MsgType, decodesOk t = true ↔
      (t ≠ MsgType.M_UNKNOWN ∧ t ≠ MsgType.M_TIMEOUT)) ∧
    (∀ t₁ t₂ : MsgType,
      Message.from_raw_ptr t₁ = Message.from_raw_ptr t₂ → t₁ = t₂) ∧
    Message.from_raw_ptr MsgType.M_PING = .ok MessageKind.Ping ∧
    decodesOk MsgType.M_UNKNOWN = false ∧
    decodesOk MsgType.M_TIMEOUT = false := by
  refine ⟨by decide, by decide, by decide, by decide, by decide, by decide⟩

/-- Claim C1, witness: the dispatch equations applied at the `M_PING` tag. -/
theorem C1_dispatch_total_witness :
    decodesOk MsgType.M_PING = true ∧ MsgType.M_PING = MsgType.M_PING :=
  ⟨(C1_dispatch_total.2.1 MsgType.M_PING).mpr (by decide),
   C1_dispatch_total.2.2.1 MsgType.M_PING MsgType.M_PING rfl⟩

/-- Claim C3, counterexample: on a channel whose socket write fails, `send`
returns the very same unit value as on a healthy channel — the write error
is not surfaced to the caller as a failed send (the frame is not flushed and
the channel transitions to `Closed`, observable only through the state). -/
theorem C3_counterexample_silent :
    (MessageChannel.send chanWriteErr MsgType.M_PING).1 =
      (MessageChannel.send chanIdle MsgType.M_PING).1 ∧
    (MessageChannel.send chanWriteErr MsgType.M_PING).2.sent = [] ∧
    (MessageChannel.send chanWriteErr MsgType.M_PING).2.closed = true ∧
    (MessageChannel.send chanIdle MsgType.M_PING).2.sent = [MsgType.M_PING] := by
  refine ⟨rfl, by decide, by decide, by decide⟩

/-- Claim C3 (amended): `send` either flushes the whole encoded frame
(partial writes are retried inside the native primitive) or, on a socket
write error, transitions the channel to `Closed` without flushing; the Rust
`send` returns unit, so the failure is recorded only in the channel state,
not surfaced as a failed-send return value. -/
theorem C3_send_flush_or_close :
    (∀ (c : MsgChannelState) (m : MsgType), c.writeError = false →
      (MessageChannel.send c m).2.sent = c.sent ++ [m] ∧
      (MessageChannel.send c m).2.closed = c.closed) ∧
    (∀ (c : MsgChannelState) (m : MsgType), c.writeError = true →
      (MessageChannel.send c m).2.closed = true ∧
      (MessageChannel.send c m).2.sent = c.sent) := by
  constructor
  · intro c m hw
    simp [MessageChannel.send, msg_send_to_channel, hw]
  · intro c m hw
    simp [MessageChannel.send, msg_send_to_channel, hw]

/-- Claim C3, witness: the flush equation applied on the idle channel and
the close transition applied on the write-error channel. -/
theorem C3_send_flush_or_close_witness :
    (MessageChannel.send chanIdle MsgType.M_PING).2.sent
        = chanIdle.sent ++ [MsgType.M_PING] ∧
    (MessageChannel.send chanWriteErr MsgType.M_PING).2.closed = true :=
  ⟨(C3_send_flush_or_close.1 chanIdle MsgType.M_PING rfl).1,
   (C3_send_flush_or_close.2 chanWriteErr MsgType.M_PING rfl).1⟩

/-- Claim C4, counterexample: cloning a `CompileJob` and mutating the clone
changes the original — the clone shares the native record through the `Rc`
handle, it is not a deep value copy. -/
theorem C4_counterexample_shared_mutation :
    CompileJob.job_id job0 jobHeap0 = 0 ∧
    CompileJob.job_id job0
      (CompileJob.set_job_id (CompileJob.clone job0) 5 jobHeap0) = 5 := by
  decide

/-- Claim C4 (amended): cloning a `CompileJob` yields a second
reference-counted handle designating the same native record, not a deep
value copy — the clone is the identical handle, and a mutation through
either handle is visible through the other. -/
theorem C4_clone_shares :
    (∀ j : CompileJob, CompileJob.clone j = j) ∧
    (∀ (h : JobHeap) (j : CompileJob) (v : Nat), j.ptr < h.length →
      CompileJob.job_id j (CompileJob.set_job_id (CompileJob.clone j) v h) = v ∧
      CompileJob.job_id (CompileJob.clone j) (CompileJob.set_job_id j v h) = v) := by
  constructor
  · intro j; rfl
  · intro h j v hp
    constructor
    · simp [CompileJob.job_id, CompileJob.set_job_id, CompileJob.clone, jobAt,
        List.getElem?_set_eq_of_lt _ hp]
    · simp [CompileJob.job_id, CompileJob.set_job_id, CompileJob.clone, jobAt,
        List.getElem?_set_eq_of_lt _ hp]

/-- Claim C4, witness: mutation through a clone of the fresh job is visible
through the original handle. -/
theorem C4_clone_shares_witness :
    CompileJob.job_id job0
      (CompileJob.set_job_id (CompileJob.clone job0) 7 jobHeap0) = 7 :=
  (C4_clone_shares.2 jobHeap0 job0 7 (by decide)).1

/-- The bounded-blocking receive primitive never blocks longer than the
given timeout. -/
theorem getMsgWithTimeout_elapsed_le (c : MsgChannelState) (t : Nat) :
    (msg_channel_get_msg_with_timeout c t).2.1 ≤ t := by
  unfold msg_channel_get_msg_with_timeout
  split
  · exact Nat.zero_le t
  · split
    · exact Nat.zero_le t
    · split
      · exact Nat.le_refl t
      · split
        · assumption
        · exact Nat.le_refl t

/-- The non-blocking receive primitive leaves every frame that is not yet
readable pending: its single read attempt takes only delay-0 input. -/
theorem getMsg_incoming_pending (c : MsgChannelState) (p : Nat × MsgType)
    (hp : p ∈ c.incoming) (hz : p.1 ≠ 0) :
    p ∈ (msg_channel_get_msg c).2.incoming := by
  have hmem : p ∈ List.filter (fun q => decide (q.1 ≠ 0)) c.incoming :=
    List.mem_filter.mpr ⟨hp, by simpa using hz⟩
  unfold msg_channel_get_msg msg_channel_read_a_bit
  rcases hb : c.bufferedFrames with _ | ⟨f, rest⟩
  · dsimp only
    split <;> simpa using hmem
  · simpa using hp

/-- The bounded-blocking receive primitive yields no frame when the buffer
is empty and either the peer closed or no frame arrives within the
timeout. -/
theorem getMsgWithTimeout_none (c : MsgChannelState) (t : Nat)
    (hb : c.bufferedFrames = [])
    (h : c.peerClosed = true ∨ ∀ p ∈ c.incoming, t < p.1) :
    (msg_channel_get_msg_with_timeout c t).1 = none := by
  unfold msg_channel_get_msg_with_timeout
  rw [hb]
  rcases h with hpc | hlate
  · simp [hpc]
  · rcases hpc : c.peerClosed with _ | _
    · rcases hi : c.incoming with _ | ⟨⟨a, f⟩, rest⟩
      · simp
      · have := hlate (a, f) (by rw [hi]; exact List.mem_cons_self _ _)
        simp [Nat.not_le.mpr this]
    · simp

/-- Claim C2: `recv` with a timeout performs bounded blocking I/O — the time
spent blocked never exceeds the timeout — and returns none on timeout or on
an orderly peer close; `recv` without a timeout never blocks: it spends zero
time blocked and its single non-blocking read attempt leaves every frame
that is not yet readable pending; in both modes a non-none, non-aborting
result is a decoded `Message` variant. -/
theorem C2_recv_modes :
    (∀ (c : MsgChannelState) (t : Nat),
      (MessageChannel.recv c (some t)).2.1 ≤ t) ∧
    (∀ c : MsgChannelState, (MessageChannel.recv c none).2.1 = 0) ∧
    (∀ (c : MsgChannelState) (p : Nat × MsgType), p ∈ c.incoming → p.1 ≠ 0 →
      p ∈ (MessageChannel.recv c none).2.2.incoming) ∧
    (∀ (c : MsgChannelState) (t : Nat), c.bufferedFrames = [] →
      (c.peerClosed = true ∨ ∀ p ∈ c.incoming, t < p.1) →
      (MessageChannel.recv c (some t)).1 = .ok none) ∧
    (∀ (c : MsgChannelState) (timeout : Option Nat) (k : MessageKind),
      (MessageChannel.recv c timeout).1 = .ok (some k) →
      ∃ tag, Message.from_raw_ptr tag = .ok k) := by
  refine ⟨?_, ?_, ?_, ?_, ?_⟩
  · intro c t
    have hle := getMsgWithTimeout_elapsed_le c t
    rcases hm : msg_channel_get_msg_with_timeout c t with ⟨o, e, c'⟩
    rw [hm] at hle
    cases o <;> simpa [MessageChannel.recv, hm] using hle
  · intro c
    rcases hm : msg_channel_get_msg c with ⟨o, c'⟩
    cases o <;> simp [MessageChannel.recv, hm]
  · intro c p hp hz
    have hmem := getMsg_incoming_pending c p hp hz
    rcases hm : msg_channel_get_msg c with ⟨o, c'⟩
    rw [hm] at hmem
    cases o <;> simpa [MessageChannel.recv, hm] using hmem
  · intro c t hb h
    have hn := getMsgWithTimeout_none c t hb h
    rcases hm : msg_channel_get_msg_with_timeout c t with ⟨o, e, c'⟩
    rw [hm] at hn
    cases o with
    | none => simp [MessageChannel.recv, hm]
    | some tag => simp at hn
  · intro c timeout k hk
    cases timeout with
    | none =>
      rcases hm : msg_channel_get_msg c with ⟨o, c'⟩
      cases o with
      | none => simp [MessageChannel.recv, hm] at hk
      | some tag =>
        refine ⟨tag, ?_⟩
        simp only [MessageChannel.recv, hm] at hk
        cases hf : Message.from_raw_ptr tag with
        | error e => rw [hf] at hk; simp [Except.map] at hk
        | ok m =>
          rw [hf] at hk
          simp only [Except.map, Except.ok.injEq, Option.some.injEq] at hk
          rw [hk]
    | some t =>
      rcases hm : msg_channel_get_msg_with_timeout c t with ⟨o, e, c'⟩
      cases o with
      | none => simp [MessageChannel.recv, hm] at hk
      | some tag =>
        refine ⟨tag, ?_⟩
        simp only [MessageChannel.recv, hm] at hk
        cases hf : Message.from_raw_ptr tag with
        | error e' => rw [hf] at hk; simp [Except.map] at hk
        | ok m =>
          rw [hf] at hk
          simp only [Except.map, Except.ok.injEq, Option.some.injEq] at hk
          rw [hk]

/-- Claim C2, witness: on a channel whose peer closed with nothing buffered,
a 5 ms `recv` yields none; the blocking bound applied on the idle channel. -/
theorem C2_recv_modes_witness :
    (MessageChannel.recv chanPeerClosed (some 5)).1 = .ok none ∧
    (MessageChannel.recv chanIdle (some 3)).2.1 ≤ 3 :=
  ⟨C2_recv_modes.2.2.2.1 chanPeerClosed 5 rfl (Or.inl rfl),
   C2_recv_modes.1 chanIdle 3⟩

/-- Claim C5: `try_get_scheduler` is non-blocking and returns none while
probing or connecting is still in progress (the handshake has not yet
completed); it never aborts in the non-null assertion of
`MessageChannel::from_raw_ptr`; and when it returns a channel, that channel
is exactly the connected channel the native discovery yields for the
discovered scheduler. -/
theorem C5_try_get_scheduler :
    (∀ (d : DiscoverSchedState) (now : Nat),
      (∀ tDone, d.connectDone = some tDone → now < tDone) →
      ScheduleDiscoverer.try_get_scheduler d now = .ok none) ∧
    (∀ (d : DiscoverSchedState) (now : Nat), ∃ r,
      ScheduleDiscoverer.try_get_scheduler d now = .ok r) ∧
    (∀ (d : DiscoverSchedState) (now : Nat) (ch : MessageChannel),
      ScheduleDiscoverer.try_get_scheduler d now = .ok (some ch) →
      ch.mc = d.chan ∧ ∃ tDone, d.connectDone = some tDone ∧ tDone ≤ now) := by
  refine ⟨?_, ?_, ?_⟩
  · intro d now h
    cases hd : d.connectDone with
    | none =>
      simp [ScheduleDiscoverer.try_get_scheduler,
        discover_sched_try_get_scheduler, hd]
    | some tDone =>
      have hlt := h tDone hd
      simp [ScheduleDiscoverer.try_get_scheduler,
        discover_sched_try_get_scheduler, hd, Nat.not_le.mpr hlt]
  · intro d now
    cases hd : d.connectDone with
    | none =>
      exact ⟨none, by
        simp [ScheduleDiscoverer.try_get_scheduler,
          discover_sched_try_get_scheduler, hd]⟩
    | some tDone =>
      by_cases ht : tDone ≤ now
      · exact ⟨some ⟨d.chan⟩, by
          simp [ScheduleDiscoverer.try_get_scheduler,
            discover_sched_try_get_scheduler, MessageChannel.from_raw_ptr,
            hd, ht, Except.map]⟩
      · exact ⟨none, by
          simp [ScheduleDiscoverer.try_get_scheduler,
            discover_sched_try_get_scheduler, hd, ht]⟩
  · intro d now ch h
    cases hd : d.connectDone with
    | none =>
      simp [ScheduleDiscoverer.try_get_scheduler,
        discover_sched_try_get_scheduler, hd] at h
    | some tDone =>
      by_cases ht : tDone ≤ now
      · simp only [ScheduleDiscoverer.try_get_scheduler,
          discover_sched_try_get_scheduler, MessageChannel.from_raw_ptr,
          hd, ht, if_pos, Except.map, Except.ok.injEq, Option.some.injEq] at h
        exact ⟨by rw [← h], tDone, rfl, ht⟩
      · simp [ScheduleDiscoverer.try_get_scheduler,
          discover_sched_try_get_scheduler, hd, ht] at h

/-- Claim C5, witness: discovery still in progress yields none, and for a
completed handshake the returned channel is the discovered one. -/
theorem C5_try_get_scheduler_witness :
    ScheduleDiscoverer.try_get_scheduler discoIdle 0 = .ok none :=
  C5_try_get_scheduler.1 discoIdle 0 (by intro tDone h; cases h)

/-- Claim C6: in a run where no scheduler is reachable, `timed_out` returns
true only once at least the configured timeout has elapsed since discovery
start, and `try_get_scheduler` never returns a channel in that run. -/
theorem C6_timeout_discipline :
    (∀ (d : DiscoverSchedState) (now : Nat), d.connectDone = none →
      ScheduleDiscoverer.timed_out d now = true →
      d.startTime + d.timeout ≤ now) ∧
    (∀ (d : DiscoverSchedState) (now : Nat), d.connectDone = none →
      ScheduleDiscoverer.try_get_scheduler d now = .ok none) := by
  constructor
  · intro d now _ h
    simp only [ScheduleDiscoverer.timed_out, discover_sched_timed_out,
      Bool.and_eq_true, decide_eq_true_eq] at h
    omega
  · intro d now hd
    simp [ScheduleDiscoverer.try_get_scheduler,
      discover_sched_try_get_scheduler, hd]

/-- Claim C6, witness: the idle discoverer (timeout 100, no reachable
scheduler) reports a timeout at instant 200 only because at least 100 ms
have elapsed, and never yields a channel. -/
theorem C6_timeout_discipline_witness :
    discoIdle.startTime + discoIdle.timeout ≤ 200 ∧
    ScheduleDiscoverer.try_get_scheduler discoIdle 0 = .ok none :=
  ⟨C6_timeout_discipline.1 discoIdle 200 rfl (by decide),
   C6_timeout_discipline.2 discoIdle 0 rfl⟩

/-- Claim C7: `CompileJob::new` yields a job whose id is 0 and whose five
string fields (compiler name, environment version, input file, output file,
target platform) are all empty, and each field setter rewrites only its own
field of the underlying record, leaving every other field unchanged. -/
theorem C7_new_defaults_and_frame :
    (∀ h : JobHeap,
      CompileJob.job_id (CompileJob.new h).1 (CompileJob.new h).2 = 0 ∧
      CompileJob.compiler_name (CompileJob.new h).1 (CompileJob.new h).2 = [] ∧
      CompileJob.environment_version (CompileJob.new h).1 (CompileJob.new h).2 = [] ∧
      CompileJob.input_file (CompileJob.new h).1 (CompileJob.new h).2 = [] ∧
      CompileJob.output_file (CompileJob.new h).1 (CompileJob.new h).2 = [] ∧
      CompileJob.target_platform (CompileJob.new h).1 (CompileJob.new h).2 = []) ∧
    (∀ (h : JobHeap) (j : CompileJob) (v : Nat), j.ptr < h.length →
      jobAt (CompileJob.set_job_id j v h) j.ptr
        = { jobAt h j.ptr with job_id := v }) ∧
    (∀ (h : JobHeap) (j : CompileJob) (v : Language), j.ptr < h.length →
      jobAt (CompileJob.set_language j v h) j.ptr
        = { jobAt h j.ptr with
              language := Language.fromSys (Language.toSys v) }) ∧
    (∀ (h : JobHeap) (j : CompileJob) (v : ByteStr), j.ptr < h.length →
      (0 : Nat) ∉ v → ∃ h', CompileJob.set_compiler_name j v h = .ok h' ∧
      jobAt h' j.ptr = { jobAt h j.ptr with compiler_name := v }) ∧
    (∀ (h : JobHeap) (j : CompileJob) (v : ByteStr), j.ptr < h.length →
      (0 : Nat) ∉ v → ∃ h', CompileJob.set_environment_version j v h = .ok h' ∧
      jobAt h' j.ptr = { jobAt h j.ptr with environment_version := v }) ∧
    (∀ (h : JobHeap) (j : CompileJob) (v : ByteStr), j.ptr < h.length →
      (0 : Nat) ∉ v → ∃ h', CompileJob.set_input_file j v h = .ok h' ∧
      jobAt h' j.ptr = { jobAt h j.ptr with input_file := v }) ∧
    (∀ (h : JobHeap) (j : CompileJob) (v : ByteStr), j.ptr < h.length →
      (0 : Nat) ∉ v → ∃ h', CompileJob.set_output_file j v h = .ok h' ∧
      jobAt h' j.ptr = { jobAt h j.ptr with output_file := v }) ∧
    (∀ (h : JobHeap) (j : CompileJob) (v : ByteStr), j.ptr < h.length →
      (0 : Nat) ∉ v → ∃ h', CompileJob.set_target_platform j v h = .ok h' ∧
      jobAt h' j.ptr = { jobAt h j.ptr with target_platform := v }) := by
  refine ⟨?_, ?_, ?_, ?_, ?_, ?_, ?_, ?_⟩
  · intro h
    have hnew : jobAt (CompileJob.new h).2 ((CompileJob.new h).1).ptr
        = compileJobRecordNew := by
      simp only [CompileJob.new, jobAt]
      exact listGetDAppend h compileJobRecordNew compileJobRecordNew
    refine ⟨?_, ?_, ?_, ?_, ?_, ?_⟩ <;>
      simp [CompileJob.job_id, CompileJob.compiler_name,
        CompileJob.environment_version, CompileJob.input_file,
        CompileJob.output_file, CompileJob.target_platform, hnew,
        compileJobRecordNew]
  · intro h j v hlt
    simp [CompileJob.set_job_id, jobAt, List.getElem?_set_eq_of_lt _ hlt]
  · intro h j v hlt
    simp [CompileJob.set_language, jobAt, List.getElem?_set_eq_of_lt _ hlt]
  · intro h j v hlt hv
    refine ⟨h.set j.ptr { jobAt h j.ptr with compiler_name := v }, ?_, ?_⟩
    · simp only [CompileJob.set_compiler_name, cStringNew, if_neg hv]
    · simp [jobAt, List.getElem?_set_eq_of_lt _ hlt]
  · intro h j v hlt hv
    refine ⟨h.set j.ptr { jobAt h j.ptr with environment_version := v }, ?_, ?_⟩
    · simp only [CompileJob.set_environment_version, cStringNew, if_neg hv]
    · simp [jobAt, List.getElem?_set_eq_of_lt _ hlt]
  · intro h j v hlt hv
    refine ⟨h.set j.ptr { jobAt h j.ptr with input_file := v }, ?_, ?_⟩
    · simp only [CompileJob.set_input_file, cStringNew, if_neg hv]
    · simp [jobAt, List.getElem?_set_eq_of_lt _ hlt]
  · intro h j v hlt hv
    refine ⟨h.set j.ptr { jobAt h j.ptr with output_file := v }, ?_, ?_⟩
    · simp only [CompileJob.set_output_file, cStringNew, if_neg hv]
    · simp [jobAt, List.getElem?_set_eq_of_lt _ hlt]
  · intro h j v hlt hv
    refine ⟨h.set j.ptr { jobAt h j.ptr with target_platform := v }, ?_, ?_⟩
    · simp only [CompileJob.set_target_platform, cStringNew, if_neg hv]
    · simp [jobAt, List.getElem?_set_eq_of_lt _ hlt]

/-- Claim C7, witness: the fresh job has id 0, and setting its compiler
name changes only that field. -/
theorem C7_new_defaults_and_frame_witness :
    CompileJob.job_id job0 jobHeap0 = 0 ∧
    (∃ h', CompileJob.set_compiler_name job0 [103] jobHeap0 = .ok h' ∧
      jobAt h' job0.ptr
        = { jobAt jobHeap0 job0.ptr with compiler_name := [103] }) :=
  ⟨(C7_new_defaults_and_frame.1 []).1,
   C7_new_defaults_and_frame.2.2.2.1 jobHeap0 job0 [103] (by decide) (by decide)⟩

/-- Building k clones on top of a fresh handle leaves k+1 live handles and
an unfreed resource. -/
theorem rcCloneIter (k : Nat) : rcClone^[k] rcNew = ⟨k + 1, 0⟩ := by
  induction k with
  | zero => rfl
  | succ n ih => rw [Function.iterate_succ_apply', ih]; rfl

/-- Once the resource is freed and no handle is live, further drops change
nothing — in particular the resource is never freed a second time. -/
theorem rcDropFreedFixed (j : Nat) : rcDrop^[j] ⟨0, 1⟩ = ⟨0, 1⟩ := by
  induction j with
  | zero => rfl
  | succ n ih =>
    rw [Function.iterate_succ_apply]
    have hstep : rcDrop ⟨0, 1⟩ = ⟨0, 1⟩ := rfl
    rw [hstep]
    exact ih

/-- Dropping j of n live handles over an unfreed resource: the resource is
freed exactly when the drops consume every handle. -/
theorem rcDropIter (j n : Nat) (h : 1 ≤ n) :
    rcDrop^[j] ⟨n, 0⟩ = if j < n then ⟨n - j, 0⟩ else ⟨0, 1⟩ := by
  induction j generalizing n with
  | zero =>
    rw [if_pos (by omega)]
    simp
  | succ m ih =>
    rw [Function.iterate_succ_apply]
    by_cases hn : n = 1
    · subst hn
      have hstep : rcDrop ⟨1, 0⟩ = ⟨0, 1⟩ := rfl
      rw [hstep, rcDropFreedFixed, if_neg (by omega)]
    · have hstep : rcDrop ⟨n, 0⟩ = ⟨n - 1, 0⟩ := by
        simp [rcDrop, hn]
      rw [hstep, ih (n - 1) (by omega)]
      by_cases hm : m < n - 1
      · rw [if_pos hm, if_pos (by omega)]
        congr 1
        omega
      · rw [if_neg hm, if_neg (by omega)]

/-- Claim C9: all clones of a handle share one exclusive owner of the
underlying native resource — starting from a fresh handle and k clones, the
`sys` free function has not run while any of the k+1 handles is live, it has
run exactly once as soon as the last handle is dropped, and no further drop
can release the resource a second time. -/
theorem C9_release_exactly_once (k j : Nat) :
    (rcDrop^[j] (rcClone^[k] rcNew)).freed = (if k + 1 ≤ j then 1 else 0) ∧
    (rcDrop^[j] (rcClone^[k] rcNew)).live = k + 1 - j := by
  rw [rcCloneIter, rcDropIter j (k + 1) (by omega)]
  by_cases hj : j < k + 1
  · rw [if_pos hj, if_neg (by omega)]
    exact ⟨rfl, rfl⟩
  · rw [if_neg hj, if_pos (by omega)]
    refine ⟨rfl, ?_⟩
    show (0 : Nat) = k + 1 - j
    omega

/-- Claim C10: `ScheduleDiscoverer::new`, `ScheduleDiscoverer::new_with_options`
and every string field setter — the five `CompileJob` setters,
`MonitorLocalJobBegin::set_filename` and `MonitorStats::set_message` — abort
instead of returning whenever the given string contains an interior NUL
byte, because the `CString` conversion is unwrapped; NUL-free strings are
accepted. -/
theorem C10_nul_aborts :
    (∀ v : ByteStr, (0 : Nat) ∈ v →
      (∀ (defaultTimeout : Nat) (env : DiscoveryEnv),
        ∃ e, ScheduleDiscoverer.new (some v) defaultTimeout env = .error e) ∧
      (∀ (w : ByteStr) (t : Nat) (env : DiscoveryEnv),
        ∃ e, ScheduleDiscoverer.new_with_options v w t env = .error e) ∧
      (∀ (j : CompileJob) (h : JobHeap),
        (∃ e, CompileJob.set_compiler_name j v h = .error e) ∧
        (∃ e, CompileJob.set_environment_version j v h = .error e) ∧
        (∃ e, CompileJob.set_input_file j v h = .error e) ∧
        (∃ e, CompileJob.set_output_file j v h = .error e) ∧
        (∃ e, CompileJob.set_target_platform j v h = .error e)) ∧
      (∀ m : MonLocalJobBeginRecord,
        ∃ e, MonitorLocalJobBegin.set_filename m v = .error e) ∧
      (∀ m : MonStatsRecord,
        ∃ e, MonitorStats.set_message m v = .error e)) ∧
    (∀ v : ByteStr, (0 : Nat) ∉ v →
      (∀ (defaultTimeout : Nat) (env : DiscoveryEnv),
        ∃ d, ScheduleDiscoverer.new (some v) defaultTimeout env = .ok d) ∧
      (∀ m : MonLocalJobBeginRecord,
        ∃ m', MonitorLocalJobBegin.set_filename m v = .ok m') ∧
      (∀ m : MonStatsRecord,
        ∃ m', MonitorStats.set_message m v = .ok m')) := by
  constructor
  · intro v hv
    refine ⟨?_, ?_, ?_, ?_, ?_⟩
    · intro defaultTimeout env
      exact ⟨"called Result::unwrap() on an Err value: NulError",
        by simp only [ScheduleDiscoverer.new, cStringNew, if_pos hv]⟩
    · intro w t env
      exact ⟨"called Result::unwrap() on an Err value: NulError",
        by simp only [ScheduleDiscoverer.new_with_options, cStringNew, if_pos hv]⟩
    · intro j h
      refine ⟨?_, ?_, ?_, ?_, ?_⟩
      · exact ⟨"called Result::unwrap() on an Err value: NulError",
          by simp only [CompileJob.set_compiler_name, cStringNew, if_pos hv]⟩
      · exact ⟨"called Result::unwrap() on an Err value: NulError",
          by simp only [CompileJob.set_environment_version, cStringNew,
            if_pos hv]⟩
      · exact ⟨"called Result::unwrap() on an Err value: NulError",
          by simp only [CompileJob.set_input_file, cStringNew, if_pos hv]⟩
      · exact ⟨"called Result::unwrap() on an Err value: NulError",
          by simp only [CompileJob.set_output_file, cStringNew, if_pos hv]⟩
      · exact ⟨"called Result::unwrap() on an Err value: NulError",
          by simp only [CompileJob.set_target_platform, cStringNew, if_pos hv]⟩
    · intro m
      exact ⟨"called Result::unwrap() on an Err value: NulError",
        by simp only [MonitorLocalJobBegin.set_filename, cStringNew, if_pos hv]⟩
    · intro m
      exact ⟨"called Result::unwrap() on an Err value: NulError",
        by simp only [MonitorStats.set_message, cStringNew, if_pos hv]⟩
  · intro v hv
    refine ⟨?_, ?_, ?_⟩
    · intro defaultTimeout env
      exact ⟨discover_sched_new (some v) defaultTimeout env,
        by simp only [ScheduleDiscoverer.new, cStringNew, if_neg hv]⟩
    · intro m
      exact ⟨{ m with filename := v },
        by simp only [MonitorLocalJobBegin.set_filename, cStringNew, if_neg hv]⟩
    · intro m
      exact ⟨{ m with message := v },
        by simp only [MonitorStats.set_message, cStringNew, if_neg hv]⟩

/-- Claim C10, witness: the two-byte string with an interior NUL makes the
discoverer constructors and all seven string setters abort on the fresh job
and message records, while a NUL-free string is accepted. -/
theorem C10_nul_aborts_witness :
    (∃ e, ScheduleDiscoverer.new (some [65, 0]) 0 ⟨none, chanIdle⟩ = .error e) ∧
    (∃ e, ScheduleDiscoverer.new_with_options [65, 0] [66] 100
      ⟨none, chanIdle⟩ = .error e) ∧
    (∃ e, CompileJob.set_compiler_name job0 [65, 0] jobHeap0 = .error e) ∧
    (∃ e, CompileJob.set_environment_version job0 [65, 0] jobHeap0 = .error e) ∧
    (∃ e, CompileJob.set_input_file job0 [65, 0] jobHeap0 = .error e) ∧
    (∃ e, CompileJob.set_output_file job0 [65, 0] jobHeap0 = .error e) ∧
    (∃ e, CompileJob.set_target_platform job0 [65, 0] jobHeap0 = .error e) ∧
    (∃ e, MonitorLocalJobBegin.set_filename ⟨1, []⟩ [65, 0] = .error e) ∧
    (∃ e, MonitorStats.set_message ⟨3, []⟩ [65, 0] = .error e) ∧
    (∃ m', MonitorStats.set_message ⟨3, []⟩ [65, 66] = .ok m') :=
  ⟨(C10_nul_aborts.1 [65, 0] (by decide)).1 0 ⟨none, chanIdle⟩,
   (C10_nul_aborts.1 [65, 0] (by decide)).2.1 [66] 100 ⟨none, chanIdle⟩,
   ((C10_nul_aborts.1 [65, 0] (by decide)).2.2.1 job0 jobHeap0).1,
   ((C10_nul_aborts.1 [65, 0] (by decide)).2.2.1 job0 jobHeap0).2.1,
   ((C10_nul_aborts.1 [65, 0] (by decide)).2.2.1 job0 jobHeap0).2.2.1,
   ((C10_nul_aborts.1 [65, 0] (by decide)).2.2.1 job0 jobHeap0).2.2.2.1,
   ((C10_nul_aborts.1 [65, 0] (by decide)).2.2.1 job0 jobHeap0).2.2.2.2,
   (C10_nul_aborts.1 [65, 0] (by decide)).2.2.2.1 ⟨1, []⟩,
   (C10_nul_aborts.1 [65, 0] (by decide)).2.2.2.2 ⟨3, []⟩,
   (C10_nul_aborts.2 [65, 66] (by decide)).2.2 ⟨3, []⟩⟩

end Icecc
